import Mathlib

/-!
# Verification development for the HitSpool interface

Shallow embedding of the HitSpool repository's utility functions
(`HsUtil.py`, `payload.py`) and of the Sender's request-aggregation
behaviour.  The Sender core itself (`HsSender.py` / `RequestMonitor.py`)
is not part of the source tree here — only its unit and integration
tests are — so those parts are modelled from the specification text and
are marked as such in their doc comments.

Python machine details that matter are modelled explicitly: IEEE-754
binary64 arithmetic is modelled by rounding integers to 53 significant
bits (round-to-nearest, ties-to-even), and `struct` pack/unpack by
big-endian byte lists with explicit signed reinterpretation.
-/

namespace HitSpool

/-- A Python/JSON value as it appears on the report channel. -/
inductive PyVal where
  | pnone : PyVal
  | pbool : Bool → PyVal
  | pint : Int → PyVal
  | pstr : String → PyVal
  | pdict : List (String × PyVal) → PyVal

/-- The keys of a Python dictionary, in insertion order. -/
def keys (kvs : List (String × PyVal)) : List String := kvs.map Prod.fst

/-- `k in xdict` for a Python dictionary. -/
def hasKey (kvs : List (String × PyVal)) (k : String) : Bool :=
  (keys kvs).contains k

/-- Embedding of `HsUtil.dict_to_object`: reject a non-dictionary, collect
the expected fields that are missing and reject if there are any,
otherwise return an object carrying every key/value of the dictionary
(the `namedtuple` built from all of `xdict.keys()`). -/
def dict_to_object (xdict : PyVal) (expected_fields : List String) :
    Except String (List (String × PyVal)) :=
  match xdict with
  | .pdict kvs =>
      let missing := expected_fields.filter (fun k => !(hasKey kvs k))
      if missing.isEmpty then .ok kvs
      else .error ("Missing fields " ++ String.intercalate "," missing ++ " from dictionary")
  | _ => .error "Bad object"

/-! ## Binary64 model for `get_daq_ticks`

Python floats are IEEE-754 binary64.  Every intermediate value of
`get_daq_ticks` is an integer-valued float, so the float semantics is
captured by rounding integers to the nearest 53-significant-bit value
(ties to even). -/

/-- Number of binary digits of `n`, computed with explicit fuel so that the
kernel can evaluate it (`pybits n n` is the bit length of `n`). -/
def pybits : ℕ → ℕ → ℕ
  | 0, _ => 0
  | fuel + 1, n => if n = 0 then 0 else pybits fuel (n / 2) + 1

/-- Round a natural number to the nearest IEEE-754 binary64 value
(53 significant bits, ties to even).  Values of at most 53 bits are exact. -/
def roundB64pos (n : ℕ) : ℕ :=
  let b := pybits n n
  if b ≤ 53 then n
  else
    let s := b - 53
    let q := n / 2 ^ s
    let r := n % 2 ^ s
    let half := 2 ^ (s - 1)
    if half < r ∨ (r = half ∧ q % 2 = 1) then (q + 1) * 2 ^ s else q * 2 ^ s

/-- Round an integer to the nearest IEEE-754 binary64 value.  Binary64
rounding is symmetric about zero. -/
def roundB64 (n : ℤ) : ℤ :=
  if 0 ≤ n then roundB64pos n.toNat else -(roundB64pos (-n).toNat)

/-- Embedding of `HsUtil.get_daq_ticks`.  The input is the normalized
`timedelta` `end_time - start_time` (its `days`, `seconds` and
`microseconds` fields).  The source computes
`int(((delta.days * 24 * 3600 + delta.seconds) * 1E6 + delta.microseconds) * multiplier)`
in Python float arithmetic: the integer subexpression is exact, and every
float operation rounds its integer result to binary64 precision. -/
def get_daq_ticks (days seconds microseconds : ℤ) (is_ns : Bool) : ℤ :=
  let multiplier : ℤ := if is_ns then 1000 else 10000
  let secs := days * 24 * 3600 + seconds
  let a := roundB64 secs
  let b := roundB64 (a * 1000000)
  let c := roundB64 (b + roundB64 microseconds)
  roundB64 (c * multiplier)

/-! ## `send_live_status` -/

/-- A `DAQTime` is modelled by its `utc` representation string, which is
all `send_live_status` reads from it. -/
structure DAQTime where
  utc : String

/-- A JSON message handed to `i3socket.send_json`. -/
structure I3Msg where
  service : String
  varname : String
  time : String
  value : List (String × PyVal)
  prio : Int

/-- Render an optional string the way the Python value lands in JSON. -/
def optVal : Option String → PyVal
  | none => .pnone
  | some s => .pstr s

/-- Embedding of `HsUtil.send_live_status`.  `now` stands for the
`datetime.datetime.utcnow()` string captured once per call.  The claim's
domain restricts `start_time`/`stop_time` to `DAQTime` or `None`, which
this typed embedding mirrors. -/
def send_live_status (req_id username pfx : Option String)
    (start_time stop_time : Option DAQTime)
    (copydir status : Option String)
    (success failed : Option String) (now : String) :
    Except String I3Msg := do
  let some st := status | throw "Status is not set"
  let some rid := req_id | throw "Request ID is not set"
  let some cdir := copydir | throw "Destination directory is not set"
  let start_utc ← match start_time with
    | none =>
        if st ≠ "REQUEST ERROR" then throw "Start time is not set" else pure ""
    | some t => pure t.utc
  let stop_utc ← match stop_time with
    | none =>
        if st ≠ "REQUEST ERROR" then throw "Stop time is not set" else pure ""
    | some t => pure t.utc
  let value := [("request_id", PyVal.pstr rid),
                ("username", optVal username),
                ("prefix", optVal pfx),
                ("start_time", PyVal.pstr start_utc),
                ("stop_time", PyVal.pstr stop_utc),
                ("destination_dir", PyVal.pstr cdir),
                ("update_time", PyVal.pstr now),
                ("status", PyVal.pstr st)]
  let value := value ++ (match success with
    | none => [] | some s => [("success", PyVal.pstr s)])
  let value := value ++ (match failed with
    | none => [] | some f => [("failed", PyVal.pstr f)])
  pure { service := "hitspool", varname := "hsrequest_info", time := now,
         value := value, prio := 1 }

/-! ## `split_rsync_host_and_path` -/

/-- `s.split(":", 1)`: split a character list at the first colon, if any. -/
def splitColonOnce : List Char → Option (List Char × List Char)
  | [] => none
  | c :: rest =>
      if c = ':' then some ([], rest)
      else match splitColonOnce rest with
        | none => none
        | some (a, b) => some (c :: a, b)

/-- Embedding of `HsUtil.split_rsync_host_and_path`: non-strings are
rejected; a leading `user@host:` part is split off only when the segment
before the first colon contains no slash; otherwise the whole string is
the path. -/
def split_rsync_host_and_path (rsync_path : PyVal) :
    Except String (String × String) :=
  match rsync_path with
  | .pstr s =>
      match splitColonOnce s.data with
      | some (pre, post) =>
          if pre.contains '/' then .ok ("", s)
          else .ok (⟨pre⟩, ⟨post⟩)
      | none => .ok ("", s)
  | _ => .error "Illegal rsync path"

/-! ## The Sender's request-aggregation state machine

`HsSender.py`/`RequestMonitor.py` are not in the source tree (only their
tests are), so the machine below is modelled from the specification,
§4.3 "Sender — the request aggregation state machine" and §4.4, with log
message texts taken from the expected-log assertions of
`HsSenderTest.py`. -/

/-- The five report-message kinds of the protocol. -/
inductive MsgType where
  | initial | started | working | mdone | mfailed
  deriving DecidableEq

/-- Wire name of a message kind. -/
def MsgType.wireName : MsgType → String
  | .initial => "INITIAL"
  | .started => "STARTED"
  | .working => "WORKING"
  | .mdone => "DONE"
  | .mfailed => "FAILED"

/-- State of one hub-leg of a request. -/
inductive LegState where
  | initial | inProgress | ldone | lfailed
  deriving DecidableEq

/-- DONE and FAILED are the terminal leg states. -/
def LegState.isTerminal : LegState → Bool
  | .ldone => true
  | .lfailed => true
  | _ => false

/-- Modelled from the spec: the durable `RequestRecord` (§3), restricted
to the fields the claims are about — the per-host leg states (in
insertion order, as in a Python dict) and the once-only IN PROGRESS
notification flag implied by "Emit IN_PROGRESS status once" (§4.3). -/
structure RequestRecord where
  legs : List (String × LegState)
  ipSent : Bool
  deriving DecidableEq

/-- A report message, restricted to the routing fields. -/
structure Msg where
  msgtype : MsgType
  request_id : String
  host : String
  deriving DecidableEq

/-- Externally visible effects of one processed message: status JSON
notifications and log lines. -/
inductive Event where
  | statusQueued (rid : String)
  | statusInProgress (rid : String)
  | statusTerminal (rid : String) (status : String) (success failed : Option String)
  | log (text : String)
  deriving DecidableEq

/-- Sender state: the map `request_id → RequestRecord` in insertion order. -/
abbrev SenderState := List (String × RequestRecord)

/-- Trailing decimal digits of a hostname (`"ichub01"` ↦ `['0','1']`). -/
def trailingDigits (l : List Char) : List Char :=
  (l.reverse.takeWhile Char.isDigit).reverse

/-- Decimal digit characters to a natural number. -/
def digitsToNat (l : List Char) : ℕ :=
  l.foldl (fun acc c => acc * 10 + (c.toNat - 48)) 0

/-- Tail number of a hub host name, without leading zeros: `"ichub01"` ↦ `"1"`. -/
def hostTail (h : String) : String :=
  toString (digitsToNat (trailingDigits h.data))

/-- Comma-joined tail numbers of a host list: `["ichub01","ichub86"]` ↦ `"1,86"`. -/
def joinTails (hosts : List String) : String :=
  String.intercalate "," (hosts.map hostTail)

/-- Update (or append) one leg of a leg map, preserving insertion order. -/
def setLeg : List (String × LegState) → String → LegState → List (String × LegState)
  | [], h, s => [(h, s)]
  | (h0, s0) :: rest, h, s =>
      if h0 == h then (h0, s) :: rest else (h0, s0) :: setLeg rest h s

/-- Store (or insert) one request record, preserving insertion order. -/
def storeRecord : SenderState → String → RequestRecord → SenderState
  | [], rid, rec => [(rid, rec)]
  | (r0, rec0) :: rest, rid, rec =>
      if r0 == rid then (r0, rec) :: rest else (r0, rec0) :: storeRecord rest rid rec

/-- Delete a request record. -/
def deleteRecord (st : SenderState) (rid : String) : SenderState :=
  st.filter (fun p => !(p.1 == rid))

/-- Every known hub-leg is terminal. -/
def allTerminal (legs : List (String × LegState)) : Bool :=
  legs.all (fun p => p.2.isTerminal)

/-- Modelled from the spec: the aggregate terminal status (§4.3 step 5) —
all DONE → SUCCESS with `success` = comma-joined tail numbers, all
FAILED → FAIL, mixed → PARTIAL with both fields. -/
def terminalEvent (rid : String) (legs : List (String × LegState)) : Event :=
  let succ := (legs.filter (fun p => p.2 == LegState.ldone)).map Prod.fst
  let bad := (legs.filter (fun p => p.2 == LegState.lfailed)).map Prod.fst
  if bad.isEmpty then .statusTerminal rid "SUCCESS" (some (joinTails succ)) none
  else if succ.isEmpty then .statusTerminal rid "FAIL" none (some (joinTails bad))
  else .statusTerminal rid "PARTIAL" (some (joinTails succ)) (some (joinTails bad))

/-- Modelled from the spec: the completion check (§4.3 step 5).  If every
known hub-leg is terminal the final status is emitted and the record is
deleted, otherwise the updated record is persisted. -/
def finishOrStore (st : SenderState) (rid : String) (rec : RequestRecord) :
    SenderState × List Event :=
  if allTerminal rec.legs then
    (deleteRecord (storeRecord st rid rec) rid, [terminalEvent rid rec.legs])
  else (storeRecord st rid rec, [])

/-- Log line for a message arriving with no active request
(text from `HsSenderTest.test_main_loop_no_init_just_success`). -/
def unexpectedLog (m : Msg) : String :=
  "Received unexpected " ++ m.msgtype.wireName ++ " message from " ++ m.host ++
    " for Req#" ++ m.request_id ++ " (no active request)"

/-- Log line noting creation of a synthetic record. -/
def notInitLog (m : Msg) : String :=
  "Request " ++ m.request_id ++ " was not initialized (received " ++
    m.msgtype.wireName ++ " from " ++ m.host ++ ")"

/-- Log line for a DONE/FAILED hub-leg that never sent STARTED. -/
def noStartLog (m : Msg) : String :=
  "Saw " ++ m.msgtype.wireName ++ " message for request " ++ m.request_id ++
    " host " ++ m.host ++ " without a START message"

/-- Take a hub-leg to DONE or FAILED and run the completion check; used by
both the active-record path and the synthetic path. -/
def applyTerminal (st : SenderState) (m : Msg) (rec : RequestRecord)
    (ls : LegState) (evs : List Event) : SenderState × List Event :=
  let rec2 : RequestRecord := ⟨setLeg rec.legs m.host ls, true⟩
  let (st2, evs2) := finishOrStore st m.request_id rec2
  (st2, evs ++ evs2)

/-- Modelled from the spec: one step of the `RequestMonitor` serializer
(§4.3, admission/routing steps 3–5 and the transition table).  An absent
record is created by INITIAL (emitting QUEUED) or synthetically by
STARTED/DONE/FAILED (logging "no active request" and "was not
initialized"); a hub-leg leaves INITIAL on STARTED/WORKING, emitting the
IN PROGRESS status only the first time any leg of the request does; DONE
and FAILED are terminal and trigger the completion check; completion
emits the aggregate terminal status and deletes the record. -/
def process (st : SenderState) (m : Msg) : SenderState × List Event :=
  match st.lookup m.request_id with
  | none =>
      match m.msgtype with
      | .initial =>
          (storeRecord st m.request_id ⟨[(m.host, .initial)], false⟩,
           [.statusQueued m.request_id])
      | .working => (st, [.log (unexpectedLog m)])
      | .started =>
          (storeRecord st m.request_id ⟨[(m.host, .inProgress)], true⟩,
           [.log (unexpectedLog m), .log (notInitLog m)])
      | .mdone =>
          applyTerminal st m ⟨[], true⟩ .ldone
            [.log (unexpectedLog m), .log (notInitLog m), .log (noStartLog m)]
      | .mfailed =>
          applyTerminal st m ⟨[], true⟩ .lfailed
            [.log (unexpectedLog m), .log (notInitLog m), .log (noStartLog m)]
  | some rec =>
      match m.msgtype with
      | .initial => (st, [.log ("ignoring duplicate INITIAL for request " ++ m.request_id)])
      | .working =>
          match rec.legs.lookup m.host with
          | some .initial | none =>
              (storeRecord st m.request_id ⟨setLeg rec.legs m.host .inProgress, true⟩,
               if rec.ipSent then [] else [.statusInProgress m.request_id])
          | some _ => (st, [])
      | .started =>
          match rec.legs.lookup m.host with
          | some .initial | none =>
              (storeRecord st m.request_id ⟨setLeg rec.legs m.host .inProgress, true⟩,
               if rec.ipSent then [] else [.statusInProgress m.request_id])
          | some .inProgress =>
              (st, [.log ("ignoring duplicate STARTED for request " ++ m.request_id)])
          | some _ =>
              (st, [.log ("late STARTED for request " ++ m.request_id)])
      | .mdone =>
          match rec.legs.lookup m.host with
          | some .inProgress => applyTerminal st m rec .ldone []
          | some .initial | none =>
              applyTerminal st m rec .ldone
                ((if rec.ipSent then [] else [.statusInProgress m.request_id]) ++
                 [.log (noStartLog m)])
          | some _ => (st, [.log ("late DONE for request " ++ m.request_id)])
      | .mfailed =>
          match rec.legs.lookup m.host with
          | some .inProgress => applyTerminal st m rec .lfailed []
          | some .initial | none =>
              applyTerminal st m rec .lfailed
                ((if rec.ipSent then [] else [.statusInProgress m.request_id]) ++
                 [.log (noStartLog m)])
          | some _ => (st, [.log ("late FAILED for request " ++ m.request_id)])

/-- Run the serializer over a message list, collecting all events. -/
def trace (st : SenderState) : List Msg → SenderState × List Event
  | [] => (st, [])
  | m :: ms =>
      let (st2, evs) := process st m
      let (st3, evs2) := trace st2 ms
      (st3, evs ++ evs2)

/-- Is this event the QUEUED status for request `rid`? -/
def isQueuedFor (rid : String) : Event → Bool
  | .statusQueued r => r == rid
  | _ => false

/-- Is this event the IN PROGRESS status for request `rid`? -/
def isInProgressFor (rid : String) : Event → Bool
  | .statusInProgress r => r == rid
  | _ => false

/-- Is this event a terminal status for request `rid`? -/
def isTerminalFor (rid : String) : Event → Bool
  | .statusTerminal r _ _ _ => r == rid
  | _ => false

/-! ## Inbound message admission -/

/-- Does this dictionary value equal the string `"WORKING"`? -/
def isWorkingVal : Option PyVal → Bool
  | some (.pstr s) => s == "WORKING"
  | _ => false

/-- Modelled from the spec: the schema check applied by the Sender's main
loop to each inbound report message (`HsMessage.from_dict` is not under
src/) — "Message must be a mapping with `msgtype`, `request_id`, and
(except for WORKING) `start_ticks` and `stop_ticks`.  Violations are
logged and the message is dropped" (§4.3 step 1).  The error texts
follow the assertions of `HsSenderTest.py`. -/
def validate_message (m : PyVal) : Except String (List (String × PyVal)) :=
  match m with
  | .pdict kvs =>
      if !(hasKey kvs "request_id") then
        .error "No request ID found in message"
      else if !(isWorkingVal (kvs.lookup "msgtype")) &&
              (!(hasKey kvs "start_ticks") || !(hasKey kvs "stop_ticks")) then
        .error "Dictionary is missing start_ticks and/or stop_ticks"
      else .ok kvs
  | _ => .error "Received message, not dictionary"

/-- Extract the routing fields of an admitted message; `none` for an
unknown `msgtype` (logged as a bad message and dropped, §4.3 step 1). -/
def parseMsg (kvs : List (String × PyVal)) : Option Msg :=
  match kvs.lookup "msgtype", kvs.lookup "request_id", kvs.lookup "host" with
  | some (.pstr mt), some (.pstr rid), some (.pstr h) =>
      if mt == "INITIAL" then some ⟨.initial, rid, h⟩
      else if mt == "STARTED" then some ⟨.started, rid, h⟩
      else if mt == "WORKING" then some ⟨.working, rid, h⟩
      else if mt == "DONE" then some ⟨.mdone, rid, h⟩
      else if mt == "FAILED" then some ⟨.mfailed, rid, h⟩
      else none
  | _, _, _ => none

/-- Modelled from the spec: one main-loop step of the Sender — validate
the inbound message, drop schema violations with an error and no state
change, drop unknown message types with a "Received bad message" log,
and hand admitted messages to the request monitor. -/
def mainloop_step (st : SenderState) (m : PyVal) :
    SenderState × List Event × Option String :=
  match validate_message m with
  | .error e => (st, [], some e)
  | .ok kvs =>
      match parseMsg kvs with
      | none => (st, [.log "Received bad message"], none)
      | some msg =>
          let (st2, evs) := process st msg
          (st2, evs, none)

/-! ## Packaging and SPADE handoff

`HsSender.spade_pickup_data` is not under src/; the model below follows
spec §4.4 with file naming and the operator-instruction log text taken
from the `HsSenderTest.py` assertions. -/

/-- Which packaging step is made to fail (as in the `FailableSender`
test fixture), if any. -/
structure SpadeEnv where
  writeMetaXml : Bool
  failTar : Bool
  failSem : Bool
  failMove : Bool
  deriving DecidableEq

/-- Outcome of a packaging attempt: the `(tarname, semname)` pair placed
in the SPADE directory on success, the log lines, the tar contents, and
the staged source files still present afterwards. -/
structure SpadeResult where
  moved : Option (String × String)
  logs : List String
  tarContents : List String
  remainingSource : List String
  deriving DecidableEq

/-- SNALERT, HESE and ANON are the standard request categories; an
operator-supplied category is nonstandard. -/
def isStandardPfx (p : String) : Bool :=
  p == "SNALERT" || p == "HESE" || p == "ANON"

/-- Operator instruction logged whenever packaging fails. -/
def SPADE_HELP : String :=
  "Please put the data manually in the SPADE directory. Use HsSpader.py, for example."

/-- Modelled from the spec: `HsSender.spade_pickup_data` (§4.4) — build
the tar archive `<HS_ for a standard category><basename>.tar` and the
semaphore `<base>.sem` or metadata `<base>.meta.xml` per configuration,
move them into the SPADE directory (tar before semaphore), and on any
failure return None, log the underlying error and the operator
instruction, and leave the staged source files in place. -/
def spade_pickup_data (env : SpadeEnv) (basename : String) (pfx : String)
    (files : List String) : SpadeResult :=
  let base := if isStandardPfx pfx then "HS_" ++ basename else basename
  let tarname := base ++ ".tar"
  let semname := base ++ (if env.writeMetaXml then ".meta.xml" else ".sem")
  if env.failTar then
    ⟨none, ["tar creation failed", SPADE_HELP], [], files⟩
  else if env.failSem then
    ⟨none, ["semaphore creation failed", SPADE_HELP], [], files⟩
  else if env.failMove then
    ⟨none, ["move into SPADE directory failed", SPADE_HELP], [], files⟩
  else
    ⟨some (tarname, semname), [], files, []⟩

/-! ## Payloads (`payload.py`)

Byte strings are `List ℕ`; `struct` pack/unpack is modelled by
big-endian byte lists, with the sign reinterpretation of
`PayloadReader.decode_payload`'s `">iiq"` made explicit. -/

/-- Big-endian byte list of width `w` for a value already reduced below
`256 ^ w`. -/
def toBytesBE : ℕ → ℕ → List ℕ
  | 0, _ => []
  | w + 1, v => toBytesBE w (v / 256) ++ [v % 256]

/-- Value of a big-endian byte list. -/
def fromBytesBE (bs : List ℕ) : ℕ :=
  bs.foldl (fun acc b => acc * 256 + b) 0

/-- Value of a big-endian byte list reinterpreted as a signed integer of
`bits` bits (two's complement), as `struct.unpack` does for `i`/`q`. -/
def sIntBE (bs : List ℕ) (bits : ℕ) : ℤ :=
  let u := fromBytesBE bs
  if u < 2 ^ (bits - 1) then (u : ℤ) else (u : ℤ) - 2 ^ bits

/-- `data[off:off+len]` with Python slice clamping. -/
def sliceTake (d : List ℕ) (off len : ℕ) : List ℕ :=
  (d.drop off).take len

/-- The state `Payload.__init__` keeps: the envelope time and the data
bytes, with `pdata = none` exactly when `__valid_data` is false. -/
structure PayData where
  utime : ℤ
  pdata : Option (List ℕ)
  deriving DecidableEq

/-- Embedding of `Payload.__init__`: the data bytes are retained only
when `keep_data` is true and data is not `None`. -/
def payInit (utime : ℤ) (data : Option (List ℕ)) (keep_data : Bool) : PayData :=
  if keep_data && data.isSome then ⟨utime, data⟩ else ⟨utime, none⟩

/-- Embedding of `Payload.bytes`: raise if the data was discarded,
otherwise `struct.pack(">2IQ", len(data) + 16, type_id, utime)` followed
by the data.  `struct.pack` raises when a value is out of range for its
format character. -/
def payloadBytes (type_id : ℤ) (p : PayData) : Except String (List ℕ) :=
  match p.pdata with
  | none => .error "Data was discarded; cannot return bytes"
  | some d =>
      if 0 ≤ type_id ∧ type_id < 2 ^ 32 ∧ 0 ≤ p.utime ∧ p.utime < 2 ^ 64 ∧
          (d.length : ℤ) + 16 < 2 ^ 32 then
        .ok (toBytesBE 4 (d.length + 16) ++ toBytesBE 4 type_id.toNat ++
             toBytesBE 8 p.utime.toNat ++ d)
      else .error "struct pack error"

/-- An `UnknownPayload`: a payload type not implemented by the library. -/
structure UnknownP where
  type_id : ℤ
  pay : PayData
  deriving DecidableEq

/-- Embedding of `UnknownPayload.__init__`. -/
def UnknownP.make (tid utime : ℤ) (data : Option (List ℕ)) (keep_data : Bool) :
    UnknownP :=
  ⟨tid, payInit utime data keep_data⟩

/-- A constructed `DeltaCompressedHit` (header fields decoded in
`__init__`; the payload `utime` is the `Q` at data offset 8). -/
structure DeltaHit where
  mbid : ℤ
  pay : PayData
  version : ℕ
  pedestal : ℕ
  domclk : ℕ
  word0 : ℕ
  word2 : ℕ
  deriving DecidableEq

/-- Embedding of `DeltaCompressedHit.__init__`: `None` data raises (a
`TypeError` from `len`), short data and a bad order-check raise
`PayloadException`; otherwise the header fields are decoded from
`struct.unpack(">8xQ3HQ", data[:30])` and `">2I"` at 30. -/
def DeltaHit.make (mbid : ℤ) (data : Option (List ℕ)) (keep_data : Bool) :
    Except String DeltaHit :=
  match data with
  | none => .error "TypeError: len() of None"
  | some d =>
      if d.length < 38 then
        .error "Expected at least 38 data bytes"
      else if fromBytesBE (sliceTake d 16 2) ≠ 1 then
        .error "Bad order-check for DeltaSenderHit (should be 1)"
      else
        .ok { mbid := mbid,
              pay := payInit (fromBytesBE (sliceTake d 8 8) : ℕ) (some d) keep_data,
              version := fromBytesBE (sliceTake d 18 2),
              pedestal := fromBytesBE (sliceTake d 20 2),
              domclk := fromBytesBE (sliceTake d 22 8),
              word0 := fromBytesBE (sliceTake d 30 4),
              word2 := fromBytesBE (sliceTake d 34 4) }

/-- A hit record inside a V5 event.  Mirroring `BaseHitRecord.__init__`,
`chan_id` duplicates the flags byte and `rutime` adds the channel field
to the base time, exactly as the source does. -/
structure HitRecord where
  rtype : ℕ
  flags : ℕ
  chan_id : ℕ
  rutime : ℤ
  rdata : List ℕ
  deriving DecidableEq

/-- Embedding of `EventV5.__load_hit_records`' loop: `k` records starting
at `off`, returning the records and the final offset.  An unknown record
type or a short header slice raises. -/
def loadHitRecords (base_time : ℤ) (d : List ℕ) :
    ℕ → ℕ → Except String (List HitRecord × ℕ)
  | 0, off => .ok ([], off)
  | k + 1, off =>
      if (sliceTake d off 10).length ≠ 10 then .error "struct unpack error"
      else
        let h0 := fromBytesBE (sliceTake d off 2)
        let h1 := fromBytesBE (sliceTake d (off + 2) 1)
        let h2 := fromBytesBE (sliceTake d (off + 3) 1)
        let h3 := fromBytesBE (sliceTake d (off + 4) 2)
        if h1 = 0 ∨ h1 = 1 then
          let rdata := if h0 = 10 then [] else sliceTake d (off + 10) (h0 - 10)
          match loadHitRecords base_time d k (off + (10 + rdata.length)) with
          | .error e => .error e
          | .ok (recs, off2) =>
              .ok (⟨h1, h2, h2, base_time + h3, rdata⟩ :: recs, off2)
        else .error "Unknown hit record type"

/-- A trigger record inside a V5 event (`TriggerRecord.__init__`). -/
structure TrigRecord where
  ttype : ℤ
  config_id : ℤ
  source_id : ℤ
  tstart : ℤ
  tend : ℤ
  hit_index : List ℕ
  deriving DecidableEq

/-- The `num` four-byte hit indices read by `TriggerRecord.__init__`. -/
def loadTrigIndices (d : List ℕ) :
    ℕ → ℕ → Except String (List ℕ × ℕ)
  | 0, off => .ok ([], off)
  | k + 1, off =>
      if (sliceTake d off 4).length ≠ 4 then .error "struct unpack error"
      else
        match loadTrigIndices d k (off + 4) with
        | .error e => .error e
        | .ok (l, off2) => .ok (fromBytesBE (sliceTake d off 4) :: l, off2)

/-- Embedding of `EventV5.__load_trig_records`' loop: `k` records starting
at `off`.  The six header fields are signed (`">6i"`); a negative count
reads no indices, as `range` of a negative number is empty. -/
def loadTrigRecords (base_time : ℤ) (d : List ℕ) :
    ℕ → ℕ → Except String (List TrigRecord × ℕ)
  | 0, off => .ok ([], off)
  | k + 1, off =>
      if (sliceTake d off 24).length ≠ 24 then .error "struct unpack error"
      else
        let t0 := sIntBE (sliceTake d off 4) 32
        let t1 := sIntBE (sliceTake d (off + 4) 4) 32
        let t2 := sIntBE (sliceTake d (off + 8) 4) 32
        let t3 := sIntBE (sliceTake d (off + 12) 4) 32
        let t4 := sIntBE (sliceTake d (off + 16) 4) 32
        let t5 := sIntBE (sliceTake d (off + 20) 4) 32
        match loadTrigIndices d t5.toNat (off + 24) with
        | .error e => .error e
        | .ok (idxs, off2) =>
            match loadTrigRecords base_time d k off2 with
            | .error e => .error e
            | .ok (recs, off3) =>
                .ok (⟨t0, t1, t2, base_time + t3, base_time + t4, idxs⟩ :: recs, off3)

/-- A constructed `EventV5` payload. -/
structure EventV5 where
  pay : PayData
  stop_time : ℤ
  year : ℕ
  uid : ℕ
  run : ℕ
  subrun : ℕ
  hit_records : List HitRecord
  trig_records : List TrigRecord
  deriving DecidableEq

/-- Embedding of `EventV5.__init__`: `None` data raises, short data
raises, the header is `struct.unpack(">IHIII", data[:18])`, then the hit
records (count at 18) and trigger records are parsed. -/
def EventV5.make (utime : ℤ) (data : Option (List ℕ)) (keep_data : Bool) :
    Except String EventV5 :=
  match data with
  | none => .error "TypeError: len() of None"
  | some d =>
      if d.length < 18 then .error "Expected at least 18 data bytes"
      else if (sliceTake d 18 4).length ≠ 4 then .error "struct unpack error"
      else
        match loadHitRecords utime d (fromBytesBE (sliceTake d 18 4)) 22 with
        | .error e => .error e
        | .ok (hrecs, off1) =>
            if (sliceTake d off1 4).length ≠ 4 then .error "struct unpack error"
            else
              match loadTrigRecords utime d (fromBytesBE (sliceTake d off1 4)) (off1 + 4) with
              | .error e => .error e
              | .ok (trecs, _) =>
                  .ok { pay := payInit utime (some d) keep_data,
                        stop_time := utime + fromBytesBE (sliceTake d 0 4),
                        year := fromBytesBE (sliceTake d 4 2),
                        uid := fromBytesBE (sliceTake d 6 4),
                        run := fromBytesBE (sliceTake d 10 4),
                        subrun := fromBytesBE (sliceTake d 14 4),
                        hit_records := hrecs,
                        trig_records := trecs }

/-- A decoded payload: one of the two implemented classes or an
`UnknownPayload`. -/
inductive Decoded where
  | unk : UnknownP → Decoded
  | delta : DeltaHit → Decoded
  | ev : EventV5 → Decoded
  deriving DecidableEq

/-- `Payload.bytes` of a decoded payload, using each class's
`payload_type_id()` (3 for delta hits, 21 for V5 events). -/
def Decoded.payBytes : Decoded → Except String (List ℕ)
  | .unk u => payloadBytes u.type_id u.pay
  | .delta h => payloadBytes 3 h.pay
  | .ev e => payloadBytes 21 e.pay

/-- Embedding of `PayloadReader.decode_payload`: an empty stream yields
`none`; a stream shorter than the 16-byte envelope raises; the envelope
is `struct.unpack(">iiq", ...)` (signed); a length of at most 16 leaves
the data `None`; the payload class is chosen by type id, the envelope
time being the mainboard id for a delta hit. -/
def decode_payload (stream : List ℕ) (keep_data : Bool) :
    Except String (Option Decoded) :=
  if stream.length = 0 then .ok none
  else if stream.length < 16 then .error "struct unpack error"
  else
    let length := sIntBE (sliceTake stream 0 4) 32
    let type_id := sIntBE (sliceTake stream 4 4) 32
    let utime := sIntBE (sliceTake stream 8 8) 64
    let rawdata := if length ≤ 16 then none
                   else some (sliceTake stream 16 (length - 16).toNat)
    if type_id = 3 then
      (DeltaHit.make utime rawdata keep_data).map (fun h => some (.delta h))
    else if type_id = 21 then
      (EventV5.make utime rawdata keep_data).map (fun e => some (.ev e))
    else
      .ok (some (.unk (UnknownP.make type_id utime rawdata keep_data)))

/-! # Theorems -/

/-- A terminal status event is never the IN PROGRESS status. -/
theorem isInProgressFor_terminalEvent (r rid : String)
    (legs : List (String × LegState)) :
    isInProgressFor r (terminalEvent rid legs) = false := by
  unfold terminalEvent
  dsimp only
  split_ifs <;> rfl

/-- The completion check never emits an IN PROGRESS status. -/
theorem countInProgress_finishOrStore (r rid : String) (st : SenderState)
    (rec : RequestRecord) :
    (finishOrStore st rid rec).2.countP (isInProgressFor r) = 0 := by
  unfold finishOrStore
  split
  · simp [List.countP, List.countP.go, isInProgressFor_terminalEvent]
  · simp [List.countP, List.countP.go]

/-- Hub-leg terminalization emits no IN PROGRESS status beyond the events
passed through to it. -/
theorem countInProgress_applyTerminal (r : String) (st : SenderState) (m : Msg)
    (rec : RequestRecord) (ls : LegState) (evs : List Event) :
    (applyTerminal st m rec ls evs).2.countP (isInProgressFor r) =
      evs.countP (isInProgressFor r) := by
  unfold applyTerminal
  dsimp only
  simp [List.countP_append, countInProgress_finishOrStore]

/-- Shorthand for the canonical two-hub message sequence of a request:
INITIAL from ichub01, STARTED from both hubs, DONE from both hubs. -/
def twoHubMsgs (rid h2 : String) : List Msg :=
  [⟨.initial, rid, "ichub01"⟩, ⟨.started, rid, "ichub01"⟩,
   ⟨.started, rid, h2⟩, ⟨.mdone, rid, "ichub01"⟩, ⟨.mdone, rid, h2⟩]

/-- C1: a request whose first processed message is STARTED or DONE (no
INITIAL ever admitted) gets the "no active request" and "was not
initialized" log lines and a synthetic record; DONE completes it through
the normal completion path; no QUEUED status is ever emitted; a
single-hub request from ichub01 completed this way ends as SUCCESS with
success = "1". -/
theorem no_init_synthetic_success (rid : String) :
    (trace [] [⟨.mdone, rid, "ichub01"⟩] =
      ([], [.log (unexpectedLog ⟨.mdone, rid, "ichub01"⟩),
            .log (notInitLog ⟨.mdone, rid, "ichub01"⟩),
            .log (noStartLog ⟨.mdone, rid, "ichub01"⟩),
            .statusTerminal rid "SUCCESS" (some "1") none])) ∧
    (process [] ⟨.started, rid, "ichub01"⟩ =
      ([(rid, ⟨[("ichub01", .inProgress)], true⟩)],
       [.log (unexpectedLog ⟨.started, rid, "ichub01"⟩),
        .log (notInitLog ⟨.started, rid, "ichub01"⟩)])) ∧
    (trace [] [⟨.started, rid, "ichub01"⟩, ⟨.mdone, rid, "ichub01"⟩] =
      ([], [.log (unexpectedLog ⟨.started, rid, "ichub01"⟩),
            .log (notInitLog ⟨.started, rid, "ichub01"⟩),
            .statusTerminal rid "SUCCESS" (some "1") none])) ∧
    (trace [] [⟨.started, rid, "ichub01"⟩, ⟨.mdone, rid, "ichub01"⟩]).2.countP
        (isQueuedFor rid) = 0 ∧
    (trace [] [⟨.mdone, rid, "ichub01"⟩]).2.countP (isQueuedFor rid) = 0 := by
  refine ⟨?_, ?_, ?_, ?_, ?_⟩ <;>
    simp [trace, process, applyTerminal, finishOrStore, storeRecord, deleteRecord,
          allTerminal, setLeg, terminalEvent, joinTails, hostTail, List.lookup,
          LegState.isTerminal, List.countP, List.countP.go, isQueuedFor] <;>
    decide

/-- C2: the IN PROGRESS status is per-request, not per-hub: it is never
re-emitted once the request's once-only flag is set (in particular on
any further STARTED), and on the canonical two-hub run it is emitted
exactly once, by the first STARTED. -/
theorem in_progress_emitted_once :
    (∀ (st : SenderState) (m : Msg) (rec : RequestRecord),
        st.lookup m.request_id = some rec → rec.ipSent = true →
        (process st m).2.countP (isInProgressFor m.request_id) = 0) ∧
    (∀ rid : String,
        (trace [] (twoHubMsgs rid "ichub86")).2 =
          [.statusQueued rid, .statusInProgress rid,
           .statusTerminal rid "SUCCESS" (some "1,86") none]) := by
  constructor
  · intro st m rec hlook hip
    rcases m with ⟨mt, rid, host⟩
    unfold process
    rw [hlook]
    cases mt <;>
      rcases hleg : (rec.legs.lookup host) with _ | ls <;>
      (try cases ls) <;>
      simp only [hleg, countInProgress_applyTerminal] <;>
      simp [hip, List.countP, List.countP.go, isInProgressFor]
  · intro rid
    simp [twoHubMsgs, trace, process, applyTerminal, finishOrStore, storeRecord,
          deleteRecord, allTerminal, setLeg, terminalEvent, joinTails, hostTail,
          List.lookup, LegState.isTerminal] <;> decide

/-- Witness for `in_progress_emitted_once`: a request whose record already
has the once-only flag set emits no IN PROGRESS on a further STARTED. -/
theorem in_progress_emitted_once_witness :
    ([(("r" : String), (⟨[("ichub01", .inProgress)], true⟩ : RequestRecord))].lookup
        ("r" : String) = some ⟨[("ichub01", .inProgress)], true⟩) ∧
    (process [("r", ⟨[("ichub01", .inProgress)], true⟩)]
        ⟨.started, "r", "ichub86"⟩).2.countP (isInProgressFor "r") = 0 ∧
    (trace [] (twoHubMsgs "Req1" "ichub86")).2 =
      [.statusQueued "Req1", .statusInProgress "Req1",
       .statusTerminal "Req1" "SUCCESS" (some "1,86") none] :=
  ⟨by decide,
   in_progress_emitted_once.1 [("r", ⟨[("ichub01", .inProgress)], true⟩)]
     ⟨.started, "r", "ichub86"⟩ ⟨[("ichub01", .inProgress)], true⟩ (by decide) rfl,
   in_progress_emitted_once.2 "Req1"⟩

/-- C3: when every hub-leg of a request reaches DONE, exactly one
terminal status is emitted and it is SUCCESS with `success` the
comma-joined tail numbers of the hub hostnames: "1,86" for
ichub01+ichub86, "1,66" for ichub01+ichub66, "1" for ichub01 alone. -/
theorem all_done_success_tails (rid : String) :
    (trace [] (twoHubMsgs rid "ichub86")).2.countP (isTerminalFor rid) = 1 ∧
    Event.statusTerminal rid "SUCCESS" (some "1,86") none ∈
      (trace [] (twoHubMsgs rid "ichub86")).2 ∧
    (trace [] (twoHubMsgs rid "ichub66")).2.countP (isTerminalFor rid) = 1 ∧
    Event.statusTerminal rid "SUCCESS" (some "1,66") none ∈
      (trace [] (twoHubMsgs rid "ichub66")).2 ∧
    (trace [] [⟨.initial, rid, "ichub01"⟩, ⟨.started, rid, "ichub01"⟩,
               ⟨.mdone, rid, "ichub01"⟩]).2.countP (isTerminalFor rid) = 1 ∧
    Event.statusTerminal rid "SUCCESS" (some "1") none ∈
      (trace [] [⟨.initial, rid, "ichub01"⟩, ⟨.started, rid, "ichub01"⟩,
                 ⟨.mdone, rid, "ichub01"⟩]).2 := by
  refine ⟨?_, ?_, ?_, ?_, ?_, ?_⟩ <;>
    simp [twoHubMsgs, trace, process, applyTerminal, finishOrStore, storeRecord,
          deleteRecord, allTerminal, setLeg, terminalEvent, joinTails, hostTail,
          List.lookup, LegState.isTerminal, List.countP, List.countP.go,
          isTerminalFor] <;> decide

/-- C4: a report message that is not a mapping, lacks `request_id`, or
(for a non-WORKING `msgtype`) lacks `start_ticks`/`stop_ticks` is
rejected with no state change and no status emission, the violation
being identified ("not dictionary", "No request ID found in",
"Dictionary is missing start_"); and `dict_to_object` raises exactly
when its argument is not a dict or misses an expected field, otherwise
returning an object carrying every key/value of the input dict. -/
theorem message_schema_rejection :
    (∀ (kvs : List (String × PyVal)) (exp : List String),
        dict_to_object (.pdict kvs) exp = .ok kvs ↔ ∀ k ∈ exp, k ∈ keys kvs) ∧
    (∀ (kvs : List (String × PyVal)) (exp : List String),
        (∃ e, dict_to_object (.pdict kvs) exp = .error e) ↔
          ∃ k ∈ exp, k ∉ keys kvs) ∧
    (∀ (v : PyVal) (exp : List String), (∀ kvs, v ≠ .pdict kvs) →
        dict_to_object v exp = .error "Bad object") ∧
    (∀ (st : SenderState) (v : PyVal), (∀ kvs, v ≠ .pdict kvs) →
        mainloop_step st v = (st, [], some "Received message, not dictionary")) ∧
    (∀ (st : SenderState) (kvs : List (String × PyVal)),
        hasKey kvs "request_id" = false →
        mainloop_step st (.pdict kvs) =
          (st, [], some "No request ID found in message")) ∧
    (∀ (st : SenderState) (kvs : List (String × PyVal)),
        hasKey kvs "request_id" = true →
        isWorkingVal (kvs.lookup "msgtype") = false →
        (hasKey kvs "start_ticks" = false ∨ hasKey kvs "stop_ticks" = false) →
        mainloop_step st (.pdict kvs) =
          (st, [], some "Dictionary is missing start_ticks and/or stop_ticks")) := by
  refine ⟨?_, ?_, ?_, ?_, ?_, ?_⟩
  · intro kvs exp
    simp only [dict_to_object]
    constructor
    · intro h
      by_cases he : (exp.filter (fun k => !(hasKey kvs k))).isEmpty
      · intro k hk
        rw [List.isEmpty_iff, List.filter_eq_nil_iff] at he
        have := he k hk
        simpa [hasKey, keys, List.contains] using this
      · rw [if_neg he] at h
        exact absurd h (by simp)
    · intro h
      have he : (exp.filter (fun k => !(hasKey kvs k))).isEmpty := by
        rw [List.isEmpty_iff, List.filter_eq_nil_iff]
        intro k hk
        have := h k hk
        simpa [hasKey, keys, List.contains] using this
      rw [if_pos he]
  · intro kvs exp
    simp only [dict_to_object]
    constructor
    · rintro ⟨e, he⟩
      by_cases hemp : (exp.filter (fun k => !(hasKey kvs k))).isEmpty
      · rw [if_pos hemp] at he
        exact absurd he (by simp)
      · rw [List.isEmpty_iff] at hemp
        rcases List.exists_mem_of_ne_nil _ hemp with ⟨k, hk⟩
        rcases List.mem_filter.1 hk with ⟨hk1, hk2⟩
        refine ⟨k, hk1, ?_⟩
        simpa [hasKey, keys, List.contains] using hk2
    · rintro ⟨k, hk, hnk⟩
      have hemp : ¬(exp.filter (fun k => !(hasKey kvs k))).isEmpty := by
        rw [List.isEmpty_iff]
        intro hnil
        have : k ∈ exp.filter (fun k => !(hasKey kvs k)) := by
          rw [List.mem_filter]
          exact ⟨hk, by simpa [hasKey, keys, List.contains] using hnk⟩
        rw [hnil] at this
        exact absurd this (List.not_mem_nil k)
      rw [if_neg hemp]
      exact ⟨_, rfl⟩
  · intro v exp hv
    cases v with
    | pdict kvs => exact absurd rfl (hv kvs)
    | pnone => rfl
    | pbool b => rfl
    | pint n => rfl
    | pstr s => rfl
  · intro st v hv
    cases v with
    | pdict kvs => exact absurd rfl (hv kvs)
    | pnone => rfl
    | pbool b => rfl
    | pint n => rfl
    | pstr s => rfl
  · intro st kvs h
    simp [mainloop_step, validate_message, h]
  · intro st kvs h1 h2 h3
    have h3b : (!(hasKey kvs "start_ticks") || !(hasKey kvs "stop_ticks")) = true := by
      rcases h3 with h | h <;> simp [h]
    simp [mainloop_step, validate_message, h1, h2, h3b]

/-- Witness for `message_schema_rejection` at concrete inputs. -/
theorem message_schema_rejection_witness :
    dict_to_object (.pdict [("msgtype", .pstr "DONE")]) ["msgtype"] =
        .ok [("msgtype", .pstr "DONE")] ∧
    (∃ e, dict_to_object (.pdict [("msgtype", .pstr "DONE")]) ["start_ticks"] =
        .error e) ∧
    dict_to_object (.pstr "abc") ["msgtype"] = .error "Bad object" ∧
    mainloop_step [] (.pstr "abc") =
      ([], [], some "Received message, not dictionary") ∧
    mainloop_step [] (.pdict [("msgtype", .pstr "rsync_sum")]) =
      ([], [], some "No request ID found in message") ∧
    mainloop_step []
        (.pdict [("msgtype", .pstr "rsync_sum"), ("request_id", .pstr "incomplete")]) =
      ([], [], some "Dictionary is missing start_ticks and/or stop_ticks") :=
  ⟨(message_schema_rejection.1 [("msgtype", .pstr "DONE")] ["msgtype"]).mpr
      (by intro k hk; simp [keys] at hk ⊢; simpa using hk),
   (message_schema_rejection.2.1 [("msgtype", .pstr "DONE")] ["start_ticks"]).mpr
      ⟨"start_ticks", by simp, by simp [keys]⟩,
   message_schema_rejection.2.2.1 (.pstr "abc") ["msgtype"] (by intro kvs h; cases h),
   message_schema_rejection.2.2.2.1 [] (.pstr "abc") (by intro kvs h; cases h),
   message_schema_rejection.2.2.2.2.1 [] [("msgtype", .pstr "rsync_sum")] (by rfl),
   message_schema_rejection.2.2.2.2.2 []
     [("msgtype", .pstr "rsync_sum"), ("request_id", .pstr "incomplete")]
     (by rfl) (by rfl) (Or.inl (by rfl))⟩

/-- C5: if any packaging step fails (tar creation, semaphore/metadata
creation, or the move into the SPADE directory), `spade_pickup_data`
returns None, logs the underlying error together with the operator
instruction "Please put the data manually in the SPADE directory. Use
HsSpader.py, for example.", and deletes none of the source data. -/
theorem spade_failure_keeps_source (env : SpadeEnv) (basename pfx : String)
    (files : List String)
    (hfail : env.failTar = true ∨ env.failSem = true ∨ env.failMove = true) :
    (spade_pickup_data env basename pfx files).moved = none ∧
    SPADE_HELP ∈ (spade_pickup_data env basename pfx files).logs ∧
    (spade_pickup_data env basename pfx files).logs.length = 2 ∧
    (spade_pickup_data env basename pfx files).remainingSource = files := by
  unfold spade_pickup_data
  dsimp only
  rcases h1 : env.failTar with _ | _
  · rcases h2 : env.failSem with _ | _
    · rcases h3 : env.failMove with _ | _
      · rw [h1, h2, h3] at hfail
        simp at hfail
      · simp
    · simp
  · simp

/-- Witness for `spade_failure_keeps_source`: a failing tar step. -/
theorem spade_failure_keeps_source_witness :
    ((⟨false, true, false, false⟩ : SpadeEnv).failTar = true ∨
       (⟨false, true, false, false⟩ : SpadeEnv).failSem = true ∨
       (⟨false, true, false, false⟩ : SpadeEnv).failMove = true) ∧
    (spade_pickup_data ⟨false, true, false, false⟩ "SNALERT_20190516_ichub01"
        "SNALERT" ["HitSpool-11"]).moved = none ∧
    (spade_pickup_data ⟨false, true, false, false⟩ "SNALERT_20190516_ichub01"
        "SNALERT" ["HitSpool-11"]).remainingSource = ["HitSpool-11"] :=
  ⟨Or.inl rfl,
   (spade_failure_keeps_source ⟨false, true, false, false⟩
      "SNALERT_20190516_ichub01" "SNALERT" ["HitSpool-11"] (Or.inl rfl)).1,
   (spade_failure_keeps_source ⟨false, true, false, false⟩
      "SNALERT_20190516_ichub01" "SNALERT" ["HitSpool-11"] (Or.inl rfl)).2.2.2⟩

/-- C6: a successful `spade_pickup_data` with a standard category yields
`HS_<basename>.tar` plus `HS_<basename>.sem` or `HS_<basename>.meta.xml`
per the metadata configuration, with the delivered files carried into
the tar unchanged; for a nonstandard (operator-supplied) category the
`HS_` part is omitted. -/
theorem spade_success_names (env : SpadeEnv) (basename pfx : String)
    (files : List String) (h1 : env.failTar = false) (h2 : env.failSem = false)
    (h3 : env.failMove = false) :
    (spade_pickup_data env basename pfx files).moved =
      some ((if isStandardPfx pfx then "HS_" ++ basename else basename) ++ ".tar",
            (if isStandardPfx pfx then "HS_" ++ basename else basename) ++
              (if env.writeMetaXml then ".meta.xml" else ".sem")) ∧
    (spade_pickup_data env basename pfx files).tarContents = files ∧
    (spade_pickup_data env basename pfx files).logs = [] ∧
    isStandardPfx "SNALERT" = true ∧ isStandardPfx "HESE" = true ∧
    isStandardPfx "ANON" = true ∧ isStandardPfx "SomeCategory" = false := by
  unfold spade_pickup_data
  rw [h1, h2, h3]
  refine ⟨rfl, rfl, rfl, rfl, rfl, rfl, rfl⟩

/-- Witness for `spade_success_names`: the unit tests' standard and
nonstandard categories. -/
theorem spade_success_names_witness :
    (spade_pickup_data ⟨false, false, false, false⟩ "SNALERT_12345678_987654_ichub01"
        "SNALERT" ["HitSpool-11", "HitSpool-12"]).moved =
      some ("HS_SNALERT_12345678_987654_ichub01.tar",
            "HS_SNALERT_12345678_987654_ichub01.sem") ∧
    (spade_pickup_data ⟨false, false, false, false⟩ "SomeCategory_12345678_987654_ichub01"
        "SomeCategory" []).moved =
      some ("SomeCategory_12345678_987654_ichub01.tar",
            "SomeCategory_12345678_987654_ichub01.sem") := by
  constructor
  · have h := (spade_success_names ⟨false, false, false, false⟩
      "SNALERT_12345678_987654_ichub01" "SNALERT"
      ["HitSpool-11", "HitSpool-12"] rfl rfl rfl).1
    rw [h]
    rfl
  · have h := (spade_success_names ⟨false, false, false, false⟩
      "SomeCategory_12345678_987654_ichub01" "SomeCategory" [] rfl rfl rfl).1
    rw [h]
    rfl

/-- C7: with a status, request id and destination directory present, and
start/stop times that are DAQTimes or (only for "REQUEST ERROR") None,
`send_live_status` sends exactly one JSON message with service
"hitspool", varname "hsrequest_info", prio 1, whose value holds
request_id, username, prefix, start_time, stop_time, destination_dir,
update_time and status — a None time rendering as the empty string — and
carries `success`/`failed` exactly when those arguments are not None; a
missing status, request id or destination directory raises and nothing
is sent. -/
theorem send_live_status_shape :
    (∀ (req_id username pfx : Option String) (startT stopT : Option DAQTime)
        (copydir : Option String) (succ fail : Option String) (nowS : String),
        send_live_status req_id username pfx startT stopT copydir none succ fail nowS =
          .error "Status is not set") ∧
    (∀ (username pfx : Option String) (startT stopT : Option DAQTime)
        (copydir : Option String) (st : String) (succ fail : Option String)
        (nowS : String),
        send_live_status none username pfx startT stopT copydir (some st) succ fail nowS =
          .error "Request ID is not set") ∧
    (∀ (rid : String) (username pfx : Option String) (startT stopT : Option DAQTime)
        (st : String) (succ fail : Option String) (nowS : String),
        send_live_status (some rid) username pfx startT stopT none (some st) succ fail nowS =
          .error "Destination directory is not set") ∧
    (∀ (rid : String) (username pfx : Option String) (startT stopT : Option DAQTime)
        (cdir st : String) (succ fail : Option String) (nowS : String),
        (startT = none → st = "REQUEST ERROR") →
        (stopT = none → st = "REQUEST ERROR") →
        ∃ msg, send_live_status (some rid) username pfx startT stopT (some cdir)
            (some st) succ fail nowS = .ok msg ∧
          msg.service = "hitspool" ∧ msg.varname = "hsrequest_info" ∧
          msg.prio = 1 ∧ msg.time = nowS ∧
          msg.value.lookup "request_id" = some (.pstr rid) ∧
          msg.value.lookup "username" = some (optVal username) ∧
          msg.value.lookup "prefix" = some (optVal pfx) ∧
          msg.value.lookup "start_time" =
            some (.pstr (match startT with | none => "" | some t => t.utc)) ∧
          msg.value.lookup "stop_time" =
            some (.pstr (match stopT with | none => "" | some t => t.utc)) ∧
          msg.value.lookup "destination_dir" = some (.pstr cdir) ∧
          msg.value.lookup "update_time" = some (.pstr nowS) ∧
          msg.value.lookup "status" = some (.pstr st) ∧
          ((msg.value.lookup "success").isSome ↔ succ.isSome) ∧
          ((msg.value.lookup "failed").isSome ↔ fail.isSome)) := by
  refine ⟨?_, ?_, ?_, ?_⟩
  · intro req_id username pfx startT stopT copydir succ fail nowS
    rfl
  · intro username pfx startT stopT copydir st succ fail nowS
    rfl
  · intro rid username pfx startT stopT st succ fail nowS
    rfl
  · intro rid username pfx startT stopT cdir st succ fail nowS h1 h2
    rcases startT with _ | t1 <;> rcases stopT with _ | t2 <;>
      [skip; (have e1 := h1 rfl; subst e1); (have e2 := h2 rfl; subst e2); skip] <;>
      first
      | (have e1 := h1 rfl; have e2 := h2 rfl; subst e1
         rcases succ with _ | sv <;> rcases fail with _ | fv <;>
           exact ⟨_, rfl, rfl, rfl, rfl, rfl, rfl, rfl, rfl, rfl, rfl, rfl, rfl,
                  rfl, by simp, by simp⟩)
      | (rcases succ with _ | sv <;> rcases fail with _ | fv <;>
           exact ⟨_, rfl, rfl, rfl, rfl, rfl, rfl, rfl, rfl, rfl, rfl, rfl, rfl,
                  rfl, by simp, by simp⟩)

/-- Witness for `send_live_status_shape`: a complete SUCCESS notification
and a "REQUEST ERROR" notification with no times. -/
theorem send_live_status_shape_witness :
    send_live_status (some "r1") (some "me") (some "SNALERT") none none
        (some "/tmp/dest") none none none "2019-05-16 12:00:00" =
      .error "Status is not set" ∧
    (∃ msg, send_live_status (some "r1") (some "me") (some "SNALERT")
        (some ⟨"t0"⟩) (some ⟨"t1"⟩) (some "/tmp/dest") (some "SUCCESS")
        (some "1,66") none "2019-05-16 12:00:00" = .ok msg ∧
      msg.service = "hitspool" ∧ msg.prio = 1 ∧
      (msg.value.lookup "success").isSome ∧
      (msg.value.lookup "failed").isSome = false) ∧
    (∃ msg, send_live_status (some "r2") none none none none
        (some "/tmp/dest") (some "REQUEST ERROR") none none "now" = .ok msg ∧
      msg.value.lookup "start_time" = some (.pstr "")) := by
  refine ⟨?_, ?_, ?_⟩
  · exact send_live_status_shape.1 (some "r1") (some "me") (some "SNALERT")
      none none (some "/tmp/dest") none none "2019-05-16 12:00:00"
  · obtain ⟨msg, he, hs, _, hp, _, _, _, _, _, _, _, _, _, hsu, hf⟩ :=
      send_live_status_shape.2.2.2 "r1" (some "me") (some "SNALERT")
        (some ⟨"t0"⟩) (some ⟨"t1"⟩) "/tmp/dest" "SUCCESS" (some "1,66") none
        "2019-05-16 12:00:00" (by intro h; cases h) (by intro h; cases h)
    refine ⟨msg, he, hs, hp, hsu.mpr rfl, ?_⟩
    rw [Bool.eq_false_iff]
    intro hcon
    rw [Option.isSome_iff_exists] at hcon
    have := hf.mp (by rwa [Option.isSome_iff_exists])
    simp at this
  · obtain ⟨msg, he, _, _, _, _, _, _, _, hst, _⟩ :=
      send_live_status_shape.2.2.2 "r2" none none none none
        "/tmp/dest" "REQUEST ERROR" none none "now"
        (fun _ => rfl) (fun _ => rfl)
    exact ⟨msg, he, hst⟩

/-- `pybits n n` is the bit length of `n` (the fuel `n` always suffices). -/
theorem pybits_eq (fuel n : ℕ) (h : n ≤ fuel) : pybits fuel n = Nat.size n := by
  induction fuel generalizing n with
  | zero =>
    interval_cases n
    simp [pybits]
  | succ f ih =>
    by_cases hn : n = 0
    · simp [pybits, hn]
    · have h2 : n / 2 ≤ f := by omega
      rw [pybits, if_neg hn, ih _ h2]
      have h1 : 1 ≤ Nat.size n := by
        rw [Nat.one_le_iff_ne_zero, Ne, Nat.size_eq_zero]
        exact hn
      have hle : ∀ m, Nat.size n ≤ m + 1 ↔ Nat.size (n / 2) ≤ m := by
        intro m
        rw [Nat.size_le, Nat.size_le, pow_succ, Nat.div_lt_iff_lt_mul (by norm_num)]
      have a1 : Nat.size (n / 2) ≤ Nat.size n - 1 := by
        rw [← hle]
        omega
      have a2 : Nat.size n ≤ Nat.size (n / 2) + 1 := by
        rw [hle]
      omega

/-- Naturals below `2 ^ 53` are exactly representable in binary64. -/
theorem roundB64pos_small (n : ℕ) (h : n < 2 ^ 53) : roundB64pos n = n := by
  have hb : pybits n n = Nat.size n := pybits_eq n n le_rfl
  have hs : Nat.size n ≤ 53 := Nat.size_le.2 h
  simp only [roundB64pos, hb]
  rw [if_pos hs]

/-- Integers of magnitude below `2 ^ 53` are exactly representable in
binary64. -/
theorem roundB64_small (n : ℤ) (h : |n| < 2 ^ 53) : roundB64 n = n := by
  rw [abs_lt] at h
  unfold roundB64
  split_ifs with hn
  · have h1 : n.toNat < 2 ^ 53 := by omega
    rw [roundB64pos_small _ h1]
    omega
  · have h1 : (-n).toNat < 2 ^ 53 := by omega
    rw [roundB64pos_small _ h1]
    omega

/-- C8 (amended): `get_daq_ticks` returns exactly
`((days * 86400 + seconds) * 10 ^ 6 + microseconds) * multiplier`
(ticks for multiplier 10 ^ 4, nanoseconds for 10 ^ 3, leap seconds
ignored) whenever every intermediate value stays below `2 ^ 53` in
magnitude, i.e. within binary64 exactness — intervals up to about ten
days in ticks mode.  For larger intervals the float arithmetic of the
source rounds (see `get_daq_ticks_float_counterexample`). -/
theorem get_daq_ticks_exact_small (days seconds microseconds : ℤ) (is_ns : Bool)
    (h1 : |days * 86400 + seconds| < 2 ^ 53)
    (h2 : |(days * 86400 + seconds) * 1000000| < 2 ^ 53)
    (h3 : |microseconds| < 2 ^ 53)
    (h4 : |(days * 86400 + seconds) * 1000000 + microseconds| < 2 ^ 53)
    (h5 : |((days * 86400 + seconds) * 1000000 + microseconds) *
            (if is_ns then 1000 else 10000)| < 2 ^ 53) :
    get_daq_ticks days seconds microseconds is_ns =
      ((days * 86400 + seconds) * 1000000 + microseconds) *
        (if is_ns then 1000 else 10000) := by
  unfold get_daq_ticks
  have hsec : days * 24 * 3600 + seconds = days * 86400 + seconds := by ring
  rw [hsec]
  dsimp only
  rw [roundB64_small _ h1, roundB64_small _ h3, roundB64_small _ h2,
      roundB64_small _ h4, roundB64_small _ h5]

/-- Witness for `get_daq_ticks_exact_small`: a 1.5-second interval is
converted exactly, to 15 * 10 ^ 9 ticks. -/
theorem get_daq_ticks_exact_small_witness :
    (|(0 : ℤ) * 86400 + 1| < 2 ^ 53) ∧
    get_daq_ticks 0 1 500000 false = 15000000000 :=
  ⟨by decide,
   (get_daq_ticks_exact_small 0 1 500000 false (by decide) (by decide)
      (by decide) (by decide) (by decide)).trans (by decide)⟩

/-- C8 (counterexample): for the timedelta of 200 days and 1 microsecond
(e.g. the datetimes 2019-01-01 00:00:00 and 2019-07-20 00:00:00.000001),
the float arithmetic of `get_daq_ticks` rounds: the source returns
172800000000009984 ticks while the exact value
`((200 * 86400 + 0) * 10 ^ 6 + 1) * 10 ^ 4` is 172800000000010000 —
refuting the claim that every interval converts exactly. -/
theorem get_daq_ticks_float_counterexample :
    get_daq_ticks 200 0 1 false = 172800000000009984 ∧
    ((200 * 86400 + 0) * 1000000 + 1) * 10000 = 172800000000010000 ∧
    get_daq_ticks 200 0 1 false ≠
      ((200 * 86400 + 0) * 1000000 + 1) * 10000 := by
  refine ⟨by decide, by decide, by decide⟩

/-- Splitting at the first colon reconstructs the input. -/
theorem splitColonOnce_spec (l : List Char) :
    ∀ a b, splitColonOnce l = some (a, b) → l = a ++ ':' :: b := by
  induction l with
  | nil => intro a b h; cases h
  | cons c rest ih =>
    intro a b h
    unfold splitColonOnce at h
    split_ifs at h with hc
    · injection h with h2
      injection h2 with ha hb
      subst ha
      subst hb
      subst hc
      rfl
    · revert h
      rcases hr : splitColonOnce rest with _ | ⟨a2, b2⟩
      · intro h; cases h
      · intro h
        injection h with h2
        injection h2 with ha hb
        subst ha
        subst hb
        rw [List.cons_append, ← ih a2 b2 hr]

/-- The property C9 claims of `split_rsync_host_and_path`, stated from the
claim's words: the host part is empty and the path is the whole input,
or the host is non-empty, slash-free, and `host ++ ":" ++ path`
reconstructs the input. -/
def splitRsyncClaimProp (s h p : String) : Prop :=
  (h = "" ∧ p = s) ∨ (h ≠ "" ∧ '/' ∉ h.data ∧ h ++ ":" ++ p = s)

/-- C9 (counterexample): on the string `":abc"` the source returns
`("", "abc")` — the host is empty yet the path is not the whole input,
so neither disjunct of the claimed property holds. -/
theorem split_rsync_counterexample :
    split_rsync_host_and_path (.pstr ":abc") = .ok ("", "abc") ∧
    ¬ splitRsyncClaimProp ":abc" "" "abc" := by
  constructor
  · rfl
  · intro hclaim
    rcases hclaim with ⟨_, hp⟩ | ⟨hh, _, _⟩
    · exact absurd hp (by decide)
    · exact hh rfl

/-- C9 (amended): for every string the result `(host, path)` satisfies:
either the host is empty and the path is the whole input, or the host is
slash-free (possibly empty, for inputs starting with a colon) and
`host ++ ":" ++ path` reconstructs the input exactly; any non-string
argument raises. -/
theorem split_rsync_round_trip :
    (∀ s : String, ∃ h p, split_rsync_host_and_path (.pstr s) = .ok (h, p) ∧
        ((h = "" ∧ p = s) ∨ ('/' ∉ h.data ∧ h ++ ":" ++ p = s))) ∧
    (∀ v : PyVal, (∀ t, v ≠ .pstr t) →
        split_rsync_host_and_path v = .error "Illegal rsync path") := by
  constructor
  · intro s
    rcases hsp : splitColonOnce s.data with _ | ⟨pre, post⟩
    · exact ⟨"", s, by simp [split_rsync_host_and_path, hsp], Or.inl ⟨rfl, rfl⟩⟩
    · by_cases hc : pre.contains '/'
      · have hc2 : '/' ∈ pre := by simpa using hc
        exact ⟨"", s, by simp [split_rsync_host_and_path, hsp, hc2],
          Or.inl ⟨rfl, rfl⟩⟩
      · have hc2 : '/' ∉ pre := by simpa using hc
        refine ⟨⟨pre⟩, ⟨post⟩, by simp [split_rsync_host_and_path, hsp, hc2],
          Or.inr ⟨?_, ?_⟩⟩
        · simpa using hc2
        · have hl := splitColonOnce_spec s.data pre post hsp
          apply String.ext
          simp only [String.data_append]
          rw [hl]
          simp
  · intro v hv
    cases v with
    | pstr t => exact absurd rfl (hv t)
    | pnone => rfl
    | pbool b => rfl
    | pint n => rfl
    | pdict kvs => rfl

/-- Witness for `split_rsync_round_trip`: concrete instantiations of both
parts, including the non-string rejection. -/
theorem split_rsync_round_trip_witness :
    (∃ h p, split_rsync_host_and_path (.pstr "user@host:a/b") = .ok (h, p) ∧
        ((h = "" ∧ p = "user@host:a/b") ∨
         ('/' ∉ h.data ∧ h ++ ":" ++ p = "user@host:a/b"))) ∧
    ((∀ t, PyVal.pint 3 ≠ .pstr t) ∧
      split_rsync_host_and_path (.pint 3) = .error "Illegal rsync path") := by
  refine ⟨split_rsync_round_trip.1 "user@host:a/b", ?_,
    split_rsync_round_trip.2 (.pint 3) ?_⟩ <;>
  · intro t h
    cases h

/-- `toBytesBE` always produces exactly `w` bytes. -/
theorem toBytesBE_length (w : ℕ) : ∀ v, (toBytesBE w v).length = w := by
  induction w with
  | zero => intro v; rfl
  | succ w ih =>
    intro v
    simp [toBytesBE, ih]

/-- Appending one byte shifts the value by one byte. -/
theorem fromBytesBE_append_one (xs : List ℕ) (b : ℕ) :
    fromBytesBE (xs ++ [b]) = fromBytesBE xs * 256 + b := by
  unfold fromBytesBE
  rw [List.foldl_append]
  rfl

/-- Packing then unpacking a value below `256 ^ w` is the identity. -/
theorem fromBytesBE_toBytesBE (w : ℕ) : ∀ v, v < 256 ^ w →
    fromBytesBE (toBytesBE w v) = v := by
  induction w with
  | zero =>
    intro v h
    interval_cases v
    rfl
  | succ w ih =>
    intro v h
    rw [toBytesBE, fromBytesBE_append_one, ih (v / 256) ?_]
    · omega
    · rw [Nat.div_lt_iff_lt_mul (by norm_num)]
      calc v < 256 ^ (w + 1) := h
        _ = 256 ^ w * 256 := by ring

/-- Unpacking a packed value as a signed integer is the identity below
the sign bit. -/
theorem sIntBE_toBytesBE (w bits v : ℕ) (hvw : v < 256 ^ w)
    (hv : v < 2 ^ (bits - 1)) :
    sIntBE (toBytesBE w v) bits = (v : ℤ) := by
  unfold sIntBE
  dsimp only
  rw [fromBytesBE_toBytesBE w v hvw, if_pos hv]

/-- Take at exactly the length of the left part of an append. -/
theorem take_append_len (xs ys : List ℕ) (n : ℕ) (h : xs.length = n) :
    (xs ++ ys).take n = xs := by
  subst h
  exact List.take_left xs ys

/-- Drop at exactly the length of the left part of an append. -/
theorem drop_append_len (xs ys : List ℕ) (n : ℕ) (h : xs.length = n) :
    (xs ++ ys).drop n = ys := by
  subst h
  exact List.drop_left xs ys

/-- The four envelope/data slices of a packed payload byte string. -/
theorem envelope_slices (L T U : ℕ) (d : List ℕ) :
    sliceTake (toBytesBE 4 L ++ toBytesBE 4 T ++ toBytesBE 8 U ++ d) 0 4 =
      toBytesBE 4 L ∧
    sliceTake (toBytesBE 4 L ++ toBytesBE 4 T ++ toBytesBE 8 U ++ d) 4 4 =
      toBytesBE 4 T ∧
    sliceTake (toBytesBE 4 L ++ toBytesBE 4 T ++ toBytesBE 8 U ++ d) 8 8 =
      toBytesBE 8 U ∧
    (toBytesBE 4 L ++ toBytesBE 4 T ++ toBytesBE 8 U ++ d).drop 16 = d := by
  have h4L := toBytesBE_length 4 L
  have h4T := toBytesBE_length 4 T
  have h8U := toBytesBE_length 8 U
  have hassocR : toBytesBE 4 L ++ toBytesBE 4 T ++ toBytesBE 8 U ++ d =
      toBytesBE 4 L ++ (toBytesBE 4 T ++ (toBytesBE 8 U ++ d)) := by
    simp [List.append_assoc]
  have hassoc8 : toBytesBE 4 L ++ toBytesBE 4 T ++ toBytesBE 8 U ++ d =
      (toBytesBE 4 L ++ toBytesBE 4 T) ++ (toBytesBE 8 U ++ d) := by
    simp [List.append_assoc]
  refine ⟨?_, ?_, ?_, ?_⟩
  · unfold sliceTake
    rw [List.drop_zero, hassocR, take_append_len _ _ 4 h4L]
  · unfold sliceTake
    rw [hassocR, drop_append_len _ _ 4 h4L, take_append_len _ _ 4 h4T]
  · unfold sliceTake
    rw [hassoc8,
        drop_append_len _ _ 8 (by rw [List.length_append, h4L, h4T]),
        take_append_len _ _ 8 h8U]
  · exact drop_append_len _ _ 16
      (by rw [List.length_append, List.length_append, h4L, h4T, h8U])

/-- Decoding a packed payload byte string reaches the per-class dispatch
with the packed envelope values and the exact data bytes, provided the
envelope values stay below the signed reinterpretation thresholds. -/
theorem decode_payload_eq (L T U : ℕ) (d : List ℕ) (keep : Bool)
    (hL16 : 16 < L) (hL : L < 2 ^ 31) (hT : T < 2 ^ 31) (hU : U < 2 ^ 63)
    (hlen : L = d.length + 16) :
    decode_payload (toBytesBE 4 L ++ toBytesBE 4 T ++ toBytesBE 8 U ++ d) keep =
      (if (T : ℤ) = 3 then
        (DeltaHit.make (U : ℤ) (some d) keep).map (fun h => some (.delta h))
      else if (T : ℤ) = 21 then
        (EventV5.make (U : ℤ) (some d) keep).map (fun e => some (.ev e))
      else .ok (some (.unk (UnknownP.make (T : ℤ) (U : ℤ) (some d) keep)))) := by
  obtain ⟨s1, s2, s3, s4⟩ := envelope_slices L T U d
  have hlenv : (toBytesBE 4 L ++ toBytesBE 4 T ++ toBytesBE 8 U ++ d).length =
      16 + d.length := by
    simp [toBytesBE_length]
    omega
  have hpow32 : (2 : ℕ) ^ 31 ≤ 256 ^ 4 := by norm_num
  have hpow64 : (2 : ℕ) ^ 63 ≤ 256 ^ 8 := by norm_num
  have hL4 : L < 256 ^ 4 := lt_of_lt_of_le hL hpow32
  have hT4 : T < 256 ^ 4 := lt_of_lt_of_le hT hpow32
  have hU8 : U < 256 ^ 8 := lt_of_lt_of_le hU hpow64
  have hL31 : L < 2 ^ (32 - 1) := by norm_num at hL ⊢; omega
  have hT31 : T < 2 ^ (32 - 1) := by norm_num at hT ⊢; omega
  have hU63 : U < 2 ^ (64 - 1) := by norm_num at hU ⊢; omega
  have hno : ¬ ((L : ℤ) ≤ 16) := by exact_mod_cast (show ¬ L ≤ 16 by omega)
  unfold decode_payload
  rw [if_neg (by omega), if_neg (by omega)]
  dsimp only
  rw [s1, s2, s3, sIntBE_toBytesBE 4 32 L hL4 hL31, sIntBE_toBytesBE 4 32 T hT4 hT31,
      sIntBE_toBytesBE 8 64 U hU8 hU63]
  simp only [if_neg hno]
  have hraw : sliceTake (toBytesBE 4 L ++ toBytesBE 4 T ++ toBytesBE 8 U ++ d) 16
      ((L : ℤ) - 16).toNat = d := by
    unfold sliceTake
    rw [s4, show ((L : ℤ) - 16).toNat = d.length from by omega, List.take_length]
  rw [hraw]

/-- `payloadBytes` on retained data with in-range envelope values. -/
theorem payloadBytes_ok (tid u : ℤ) (d : List ℕ)
    (h1 : 0 ≤ tid) (h2 : tid < 2 ^ 32) (h3 : 0 ≤ u) (h4 : u < 2 ^ 64)
    (h5 : (d.length : ℤ) + 16 < 2 ^ 32) :
    payloadBytes tid ⟨u, some d⟩ =
      .ok (toBytesBE 4 (d.length + 16) ++ toBytesBE 4 tid.toNat ++
           toBytesBE 8 u.toNat ++ d) := by
  unfold payloadBytes
  dsimp only
  rw [if_pos ⟨h1, h2, h3, h4, h5⟩]

/-- Retained data with `keep_data=True` is stored as-is. -/
theorem payInit_keep (u : ℤ) (d : List ℕ) : payInit u (some d) true = ⟨u, some d⟩ :=
  rfl

/-- Inversion of a successful `DeltaHit.make`: the data passed its checks
and every field is determined by the arguments. -/
theorem DeltaHit.make_ok (mbid : ℤ) (d : List ℕ) (keep : Bool) (h : DeltaHit)
    (hmk : DeltaHit.make mbid (some d) keep = .ok h) :
    38 ≤ d.length ∧ fromBytesBE (sliceTake d 16 2) = 1 ∧
    h = { mbid := mbid,
          pay := payInit ((fromBytesBE (sliceTake d 8 8) : ℕ) : ℤ) (some d) keep,
          version := fromBytesBE (sliceTake d 18 2),
          pedestal := fromBytesBE (sliceTake d 20 2),
          domclk := fromBytesBE (sliceTake d 22 8),
          word0 := fromBytesBE (sliceTake d 30 4),
          word2 := fromBytesBE (sliceTake d 34 4) } := by
  unfold DeltaHit.make at hmk
  dsimp only at hmk
  by_cases h1 : d.length < 38
  · rw [if_pos h1] at hmk
    exact Except.noConfusion hmk
  · rw [if_neg h1] at hmk
    by_cases h2 : fromBytesBE (sliceTake d 16 2) ≠ 1
    · rw [if_pos h2] at hmk
      exact Except.noConfusion hmk
    · rw [if_neg h2] at hmk
      injection hmk with hh
      exact ⟨by omega, not_not.mp h2, hh.symm⟩

/-- `DeltaHit.make` succeeds or fails independently of the mainboard id,
which only lands in the `mbid` field. -/
theorem DeltaHit.make_swap (m m' : ℤ) (d : List ℕ) (keep : Bool) (h : DeltaHit)
    (hmk : DeltaHit.make m (some d) keep = .ok h) :
    DeltaHit.make m' (some d) keep = .ok { h with mbid := m' } := by
  obtain ⟨h38, hord, hh⟩ := DeltaHit.make_ok m d keep h hmk
  subst hh
  unfold DeltaHit.make
  dsimp only
  rw [if_neg (by omega), if_neg (by simp [hord])]

/-- Inversion of a successful `EventV5.make`: the payload state is the
envelope time plus the retained data. -/
theorem EventV5.make_pay (utime : ℤ) (d : List ℕ) (keep : Bool) (e : EventV5)
    (hmk : EventV5.make utime (some d) keep = .ok e) :
    e.pay = payInit utime (some d) keep := by
  unfold EventV5.make at hmk
  dsimp only at hmk
  by_cases h1 : d.length < 18
  · rw [if_pos h1] at hmk
    exact Except.noConfusion hmk
  · rw [if_neg h1] at hmk
    by_cases h2 : (sliceTake d 18 4).length ≠ 4
    · rw [if_pos h2] at hmk
      exact Except.noConfusion hmk
    · rw [if_neg h2] at hmk
      rcases hh : loadHitRecords utime d (fromBytesBE (sliceTake d 18 4)) 22 with
        e1 | ⟨hrecs, off1⟩ <;> rw [hh] at hmk
      · exact Except.noConfusion hmk
      · dsimp only at hmk
        by_cases h3 : (sliceTake d off1 4).length ≠ 4
        · rw [if_pos h3] at hmk
          exact Except.noConfusion hmk
        · rw [if_neg h3] at hmk
          rcases ht : loadTrigRecords utime d (fromBytesBE (sliceTake d off1 4))
              (off1 + 4) with e2 | ⟨trecs, off2⟩ <;> rw [ht] at hmk
          · exact Except.noConfusion hmk
          · injection hmk with hh2
            rw [← hh2]

/-- Round trip of an `UnknownPayload` with retained, non-empty data: the
envelope is 16 bytes carrying `len(data) + 16`, and decoding restores
the type id, the envelope time and the data. -/
theorem payload_roundtrip_unknown (tid utime : ℤ) (d : List ℕ)
    (h1 : 0 ≤ tid) (h2 : tid < 2 ^ 31) (h3 : tid ≠ 3) (h4 : tid ≠ 21)
    (h5 : 0 ≤ utime) (h6 : utime < 2 ^ 63) (h7 : d ≠ [])
    (h8 : (d.length : ℤ) + 16 < 2 ^ 31) :
    ∃ bs, Decoded.payBytes (.unk ⟨tid, ⟨utime, some d⟩⟩) = .ok bs ∧
      bs.length = 16 + d.length ∧
      fromBytesBE (sliceTake bs 0 4) = d.length + 16 ∧
      bs.drop 16 = d ∧
      decode_payload bs true = .ok (some (.unk ⟨tid, ⟨utime, some d⟩⟩)) := by
  have hlen0 : 0 < d.length := List.length_pos.mpr h7
  have hlen31 : d.length + 16 < 2 ^ 31 := by exact_mod_cast h8
  have hbytes := payloadBytes_ok tid utime d h1 (by omega) h5 (by omega) (by omega)
  obtain ⟨s1, _, _, s4⟩ :=
    envelope_slices (d.length + 16) tid.toNat utime.toNat d
  refine ⟨_, hbytes, ?_, ?_, s4, ?_⟩
  · simp [toBytesBE_length]
    omega
  · rw [s1, fromBytesBE_toBytesBE 4 _ (by norm_num; omega)]
  · rw [decode_payload_eq (d.length + 16) tid.toNat utime.toNat d true
        (by omega) hlen31 (by omega) (by omega) (by omega)]
    rw [Int.toNat_of_nonneg h1, Int.toNat_of_nonneg h5]
    rw [if_neg h3, if_neg h4]
    rfl

/-- Round trip of a constructed `DeltaCompressedHit`: the decoded hit has
the same data and data-derived fields, but its mainboard id is the
original hit's payload time (which `Payload.bytes` wrote into the
envelope slot that `decode_payload` reads as the mainboard id). -/
theorem payload_roundtrip_delta (mbid : ℤ) (d : List ℕ) (h : DeltaHit)
    (hmk : DeltaHit.make mbid (some d) true = .ok h)
    (hU : h.pay.utime < 2 ^ 63) (hlen : (d.length : ℤ) + 16 < 2 ^ 31) :
    ∃ bs, Decoded.payBytes (.delta h) = .ok bs ∧
      bs.drop 16 = d ∧
      decode_payload bs true =
        .ok (some (.delta { h with mbid := h.pay.utime })) := by
  obtain ⟨h38, hord, hh⟩ := DeltaHit.make_ok mbid d true h hmk
  have hpay : h.pay = ⟨((fromBytesBE (sliceTake d 8 8) : ℕ) : ℤ), some d⟩ := by
    rw [hh]
    exact payInit_keep _ _
  have hput : h.pay.utime = ((fromBytesBE (sliceTake d 8 8) : ℕ) : ℤ) := by
    rw [hpay]
  have hUn : fromBytesBE (sliceTake d 8 8) < 2 ^ 63 := by
    rw [hput] at hU
    exact_mod_cast hU
  have hlen31 : d.length + 16 < 2 ^ 31 := by exact_mod_cast hlen
  have hbytes := payloadBytes_ok 3 ((fromBytesBE (sliceTake d 8 8) : ℕ) : ℤ) d
    (by norm_num) (by norm_num) (by positivity)
    (by exact_mod_cast lt_trans hUn (by norm_num)) (by omega)
  rw [show ((3 : ℤ).toNat) = 3 from rfl,
      Int.toNat_natCast (fromBytesBE (sliceTake d 8 8))] at hbytes
  obtain ⟨_, _, _, s4⟩ :=
    envelope_slices (d.length + 16) 3 (fromBytesBE (sliceTake d 8 8)) d
  refine ⟨toBytesBE 4 (d.length + 16) ++ toBytesBE 4 3 ++
      toBytesBE 8 (fromBytesBE (sliceTake d 8 8)) ++ d, ?_, s4, ?_⟩
  · show payloadBytes 3 h.pay = _
    rw [hpay]
    exact hbytes
  · rw [decode_payload_eq (d.length + 16) 3 (fromBytesBE (sliceTake d 8 8)) d true
        (by omega) hlen31 (by norm_num) hUn (by omega)]
    rw [if_pos (by norm_num)]
    rw [DeltaHit.make_swap mbid _ d true h hmk]
    rw [hput]
    rfl

/-- Round trip of a constructed `EventV5`: decoding the packed bytes
re-parses the identical data and restores the event exactly. -/
theorem payload_roundtrip_event (utime : ℤ) (d : List ℕ) (e : EventV5)
    (hmk : EventV5.make utime (some d) true = .ok e)
    (h0 : 0 ≤ utime) (hU : utime < 2 ^ 63) (h7 : d ≠ [])
    (hlen : (d.length : ℤ) + 16 < 2 ^ 31) :
    ∃ bs, Decoded.payBytes (.ev e) = .ok bs ∧
      bs.drop 16 = d ∧
      decode_payload bs true = .ok (some (.ev e)) := by
  have hlen0 : 0 < d.length := List.length_pos.mpr h7
  have hlen31 : d.length + 16 < 2 ^ 31 := by exact_mod_cast hlen
  have hpay : e.pay = ⟨utime, some d⟩ := by
    rw [EventV5.make_pay utime d true e hmk]
    rfl
  have hbytes := payloadBytes_ok 21 utime d (by norm_num) (by norm_num) h0
    (by omega) (by omega)
  obtain ⟨_, _, _, s4⟩ := envelope_slices (d.length + 16) 21 utime.toNat d
  refine ⟨_, ?_, s4, ?_⟩
  · show payloadBytes 21 e.pay = _
    rw [hpay, hbytes]
    rfl
  · rw [decode_payload_eq (d.length + 16) 21 utime.toNat d true
        (by omega) hlen31 (by norm_num) (by omega) (by omega)]
    rw [if_neg (by norm_num), if_pos (by norm_num), Int.toNat_of_nonneg h0, hmk]
    rfl

/-- A payload constructed with `keep_data=False` discarded its data, so
`Payload.bytes` raises instead of returning bytes. -/
theorem payload_bytes_discarded (tid utime : ℤ) (dOpt : Option (List ℕ)) :
    payloadBytes tid (payInit utime dOpt false) =
      .error "Data was discarded; cannot return bytes" := by
  unfold payInit
  rw [if_neg (by simp)]
  rfl

/-- A valid 38-byte delta-hit data block: utime 42 at offset 8,
order-check 1 at offset 16, all other fields zero. -/
def deltaData38 : List ℕ :=
  [0, 0, 0, 0, 0, 0, 0, 0,
   0, 0, 0, 0, 0, 0, 0, 42,
   0, 1,
   0, 0, 0, 0,
   0, 0, 0, 0, 0, 0, 0, 0,
   0, 0, 0, 0, 0, 0, 0, 0]

/-- C10 (counterexample): a `DeltaCompressedHit` constructed with
mainboard id 7 and data whose embedded utime is 42 does not round-trip
its mainboard id: `Payload.bytes` writes the payload utime (42) into the
envelope slot that `decode_payload` reads back as the mainboard id, so
the decoded hit's mbid is 42, not 7 — refuting the claim that decoding
restores the original mainboard id. -/
theorem payload_mbid_counterexample :
    ∃ h h2 bs, DeltaHit.make 7 (some deltaData38) true = .ok h ∧
      Decoded.payBytes (.delta h) = .ok bs ∧
      decode_payload bs true = .ok (some (.delta h2)) ∧
      h.mbid = 7 ∧ h2.mbid = 42 ∧ h2.mbid ≠ h.mbid := by
  refine ⟨⟨7, ⟨42, some deltaData38⟩, 0, 0, 0, 0, 0⟩,
          ⟨42, ⟨42, some deltaData38⟩, 0, 0, 0, 0, 0⟩,
          toBytesBE 4 54 ++ toBytesBE 4 3 ++ toBytesBE 8 42 ++ deltaData38,
          ?_, ?_, ?_, rfl, rfl, by decide⟩ <;> rfl

/-- C10 (amended): for every payload constructed with `keep_data=True`
and non-empty data within the envelope's signed ranges, `Payload.bytes`
yields the 16-byte envelope (length field `len(data) + 16`) followed by
the data, and `PayloadReader.decode_payload` restores the payload: for
an `UnknownPayload` the type id, utime and data come back unchanged; for
an `EventV5` the identical event is re-parsed; for a
`DeltaCompressedHit` the data and all data-derived fields come back
unchanged but the decoded mainboard id is the original payload's utime
(not its original mbid, which `Payload.bytes` never writes).  A payload
built with `keep_data=False` raises from `Payload.bytes`. -/
theorem payload_roundtrip_amended :
    (∀ (tid utime : ℤ) (d : List ℕ), 0 ≤ tid → tid < 2 ^ 31 → tid ≠ 3 →
        tid ≠ 21 → 0 ≤ utime → utime < 2 ^ 63 → d ≠ [] →
        (d.length : ℤ) + 16 < 2 ^ 31 →
        ∃ bs, Decoded.payBytes (.unk ⟨tid, ⟨utime, some d⟩⟩) = .ok bs ∧
          bs.length = 16 + d.length ∧
          fromBytesBE (sliceTake bs 0 4) = d.length + 16 ∧
          bs.drop 16 = d ∧
          decode_payload bs true = .ok (some (.unk ⟨tid, ⟨utime, some d⟩⟩))) ∧
    (∀ (mbid : ℤ) (d : List ℕ) (h : DeltaHit),
        DeltaHit.make mbid (some d) true = .ok h →
        h.pay.utime < 2 ^ 63 → (d.length : ℤ) + 16 < 2 ^ 31 →
        ∃ bs, Decoded.payBytes (.delta h) = .ok bs ∧
          bs.drop 16 = d ∧
          decode_payload bs true =
            .ok (some (.delta { h with mbid := h.pay.utime }))) ∧
    (∀ (utime : ℤ) (d : List ℕ) (e : EventV5),
        EventV5.make utime (some d) true = .ok e →
        0 ≤ utime → utime < 2 ^ 63 → d ≠ [] → (d.length : ℤ) + 16 < 2 ^ 31 →
        ∃ bs, Decoded.payBytes (.ev e) = .ok bs ∧
          bs.drop 16 = d ∧
          decode_payload bs true = .ok (some (.ev e))) ∧
    (∀ (tid utime : ℤ) (dOpt : Option (List ℕ)),
        payloadBytes tid (payInit utime dOpt false) =
          .error "Data was discarded; cannot return bytes") :=
  ⟨payload_roundtrip_unknown, payload_roundtrip_delta, payload_roundtrip_event,
   payload_bytes_discarded⟩

/-- Witness for `payload_roundtrip_amended`: concrete instances of all
four parts, with every hypothesis discharged on explicit data. -/
theorem payload_roundtrip_amended_witness :
    (∃ bs, Decoded.payBytes (.unk ⟨5, ⟨9, some [1, 2, 3]⟩⟩) = .ok bs ∧
      bs.length = 16 + 3 ∧
      fromBytesBE (sliceTake bs 0 4) = 3 + 16 ∧
      bs.drop 16 = [1, 2, 3] ∧
      decode_payload bs true = .ok (some (.unk ⟨5, ⟨9, some [1, 2, 3]⟩⟩))) ∧
    (DeltaHit.make 7 (some deltaData38) true =
      .ok ⟨7, ⟨42, some deltaData38⟩, 0, 0, 0, 0, 0⟩) ∧
    (∃ bs, Decoded.payBytes
        (.delta ⟨7, ⟨42, some deltaData38⟩, 0, 0, 0, 0, 0⟩) = .ok bs ∧
      bs.drop 16 = deltaData38 ∧
      decode_payload bs true =
        .ok (some (.delta ⟨42, ⟨42, some deltaData38⟩, 0, 0, 0, 0, 0⟩))) ∧
    (EventV5.make 9 (some (List.replicate 26 0)) true =
      .ok ⟨⟨9, some (List.replicate 26 0)⟩, 9, 0, 0, 0, 0, [], []⟩) ∧
    (∃ bs, Decoded.payBytes
        (.ev ⟨⟨9, some (List.replicate 26 0)⟩, 9, 0, 0, 0, 0, [], []⟩) = .ok bs ∧
      bs.drop 16 = List.replicate 26 0 ∧
      decode_payload bs true =
        .ok (some (.ev ⟨⟨9, some (List.replicate 26 0)⟩, 9, 0, 0, 0, 0, [], []⟩))) ∧
    payloadBytes 5 (payInit 9 (some [1, 2, 3]) false) =
      .error "Data was discarded; cannot return bytes" := by
  refine ⟨payload_roundtrip_amended.1 5 9 [1, 2, 3] (by decide) (by decide)
      (by decide) (by decide) (by decide) (by decide) (by decide) (by decide),
    rfl, ?_, rfl, ?_,
    payload_roundtrip_amended.2.2.2 5 9 (some [1, 2, 3])⟩
  · exact payload_roundtrip_amended.2.1 7 deltaData38
      ⟨7, ⟨42, some deltaData38⟩, 0, 0, 0, 0, 0⟩ rfl (by decide) (by decide)
  · exact payload_roundtrip_amended.2.2.1 9 (List.replicate 26 0)
      ⟨⟨9, some (List.replicate 26 0)⟩, 9, 0, 0, 0, 0, [], []⟩ rfl
      (by decide) (by decide) (by decide) (by decide)

end HitSpool
